import Mathlib

set_option maxRecDepth 8192

/-!
Shallow embedding of `prefetchparser.py` (a Windows Prefetch `.pf` artifact
parser) and verification of the specification's claims about it.

Byte buffers are `List Nat` (each element a byte value; combinations reduce
mod 256, matching Python's `bytes` semantics).  Python exceptions —
`struct.error` (raised when `struct.unpack` gets a buffer whose length
differs from the format's size) and `OverflowError` (raised by `datetime`
arithmetic past year 9999) — and their propagation out of a function are
modelled with `Except PyErr`; a Python function that returns `None` on some
paths and a dict on others is modelled with `Option`.
-/

/-- Exceptions the parser can raise: `struct.error` from `struct.unpack`,
and `OverflowError` from `datetime` arithmetic that leaves the
representable calendar range. -/
inductive PyErr where
  | structError
  | overflowError
deriving DecidableEq, Repr

/-- Little-endian interpretation of a byte list, as done by `struct.unpack`
formats `<I` and `<Q` (each byte reduced mod 256, as Python bytes are). -/
def leBytes : List Nat → Nat
  | [] => 0
  | b :: rest => b % 256 + 256 * leBytes rest

/-- Python's `str.strip('\x00')`: removes NUL characters from BOTH ends of
the string (leading and trailing). -/
def stripNul (l : List Char) : List Char :=
  ((l.dropWhile (fun c => c = '\x00')).reverse.dropWhile (fun c => c = '\x00')).reverse

/-- Python's `bytes.decode('utf-16le', errors='ignore')`: byte pairs are
little-endian UTF-16 code units; a valid surrogate pair combines into one
supplementary character; an unpaired surrogate, and a trailing lone byte,
are silently dropped (`ignore`). -/
def decodeUtf16leIgnore : List Nat → List Char
  | b0 :: b1 :: b2 :: b3 :: rest2 =>
    let u := b0 % 256 + 256 * (b1 % 256)
    if u < 0xD800 ∨ 0xE000 ≤ u then
      Char.ofNat u :: decodeUtf16leIgnore (b2 :: b3 :: rest2)
    else if u < 0xDC00 then
      -- high surrogate: needs a following low surrogate
      let v := b2 % 256 + 256 * (b3 % 256)
      if 0xDC00 ≤ v ∧ v < 0xE000 then
        Char.ofNat (0x10000 + 0x400 * (u - 0xD800) + (v - 0xDC00)) ::
          decodeUtf16leIgnore rest2
      else
        decodeUtf16leIgnore (b2 :: b3 :: rest2)
    else
      -- lone low surrogate: dropped
      decodeUtf16leIgnore (b2 :: b3 :: rest2)
  | [b0, b1] =>
    let u := b0 % 256 + 256 * (b1 % 256)
    if u < 0xD800 ∨ 0xE000 ≤ u then [Char.ofNat u]
    else []
  | [b0, b1, _] =>
    -- a complete unit followed by a truncated lone byte (ignored)
    let u := b0 % 256 + 256 * (b1 % 256)
    if u < 0xD800 ∨ 0xE000 ≤ u then [Char.ofNat u]
    else []
  | _ => []

/-- Loop body of `parse_accessed_files` (`while data:` in the source), with a
fuel argument for structural recursion; each iteration consumes at least
4 bytes, so fuel equal to the buffer length is never exhausted (the
fuel-exhaustion branch is unreachable from `parse_accessed_files`). -/
def parseFilesAux : Nat → List Nat → Except PyErr (List (List Char))
  | _, [] => .ok []
  | 0, _ :: _ => .error .structError
  | fuel + 1, data =>
    -- struct.unpack('<I', data[:4]) raises struct.error unless 4 bytes remain
    if data.length < 4 then .error .structError
    else
      let file_length := leBytes (data.take 4)
      let file_name :=
        stripNul (decodeUtf16leIgnore ((data.drop 4).take file_length))
      match parseFilesAux fuel (data.drop (4 + file_length)) with
      | .error e => .error e
      | .ok rest => .ok (file_name :: rest)

/-- Embedding of `parse_accessed_files(data)`: walk the length-prefixed
UTF-16LE record stream, collecting decoded names in order. -/
def parse_accessed_files (data : List Nat) : Except PyErr (List (List Char)) :=
  parseFilesAux data.length data

/-- Gregorian calendar date (year, month, day) for a number of days since
1601-01-01, the proleptic-Gregorian arithmetic performed by Python's
`datetime(1601, 1, 1) + timedelta(...)`. -/
def civilFromDays (days : Nat) : Nat × Nat × Nat :=
  -- rebase to the standard 400-year-era epoch (0000-03-01):
  -- 1601-01-01 is day 584694 of that reckoning
  let z := days + 584694
  let era := z / 146097
  let doe := z % 146097
  let yoe := (doe - doe / 1460 + doe / 36524 - doe / 146096) / 365
  let y := yoe + era * 400
  let doy := doe - (365 * yoe + yoe / 4 - yoe / 100)
  let mp := (5 * doy + 2) / 153
  let d := doy - (153 * mp + 2) / 5 + 1
  let m := if mp < 10 then mp + 3 else mp - 9
  (if m ≤ 2 then y + 1 else y, m, d)

/-- Zero-padded two-digit decimal rendering (strftime `%m`, `%d`, `%H`, …). -/
def pad2 (n : Nat) : String :=
  if n < 10 then "0" ++ toString n else toString n

/-- Zero-padded four-digit decimal rendering (strftime `%Y`). -/
def pad4 (n : Nat) : String :=
  if n < 10 then "000" ++ toString n
  else if n < 100 then "00" ++ toString n
  else if n < 1000 then "0" ++ toString n
  else toString n

/-- Microseconds from 1601-01-01 00:00:00 to 10000-01-01 00:00:00:
3067671 days (8399 years of 365 days plus 2036 leap days) × 86400 s ×
10^6.  `datetime.max` is one microsecond below this, so Python's
`datetime(1601, 1, 1) + timedelta(microseconds=micro)` raises
`OverflowError` exactly when `micro` reaches this bound. -/
def datetimeMaxMicro : Nat := 265046774400000000

/-- Embedding of `convert_windows_timestamp(timestamp)`:
`datetime(1601, 1, 1) + timedelta(microseconds=timestamp // 10)` formatted
with `strftime('%Y-%m-%d %H:%M:%S')` (sub-second precision discarded).
The `datetime` addition raises `OverflowError` when the result passes
`datetime.max` (year 9999) — reachable within the uint64 FILETIME domain
— so the function is fallible. -/
def convert_windows_timestamp (timestamp : Nat) : Except PyErr String :=
  let micro := timestamp / 10
  if datetimeMaxMicro ≤ micro then .error .overflowError
  else
    let totalSeconds := micro / 1000000
    let days := totalSeconds / 86400
    let secs := totalSeconds % 86400
    let ymd := civilFromDays days
    .ok (pad4 ymd.1 ++ "-" ++ pad2 ymd.2.1 ++ "-" ++ pad2 ymd.2.2 ++ " " ++
      pad2 (secs / 3600) ++ ":" ++ pad2 (secs % 3600 / 60) ++ ":" ++ pad2 (secs % 60))

/-- Python's `os.path.basename`: the part of the path after the last slash. -/
def basename (s : String) : String :=
  (s.splitOn "/").getLastD s

/-- The dict returned by `parse_prefetch` on success. -/
structure FileInfo where
  executableName : String
  runCount : Nat
  lastRunTime : String
  volumeCreationTime : String
  fileReference : Nat
  volumeSerialNumber : Nat
  accessedFiles : List (List Char)
deriving DecidableEq, Repr

/-- The 4-byte magic signature `b'SCCA'`. -/
def sccaMagic : List Nat := [83, 67, 67, 65]

/-- Embedding of `parse_prefetch(filename)` applied to the file's bytes
`content`.  Each `struct.unpack(fmt, buf)` call is modelled by a guard
raising `struct.error` unless `buf` has exactly the format's size
(`'<4sI12xI48x4x'` = 76 bytes, `'<I16xQ'` = 28 bytes, `'<I4xI4xI'` = 20
bytes, `'<Q'` = 8 bytes, `'<I'` = 4 bytes, `'<II'` = 8 bytes); `f.read(n)`
after `f.seek(off)` is `(content.drop off).take n`, which like Python's
`read` silently returns fewer bytes near end-of-file. -/
def parse_prefetch (filename : String) (content : List Nat) :
    Except PyErr (Option FileInfo) :=
  let header := content.take 84
  if header.length < 84 then
    .ok none
  else
    -- struct.unpack('<4sI12xI48x4x', header[:64]): format size 76, buffer 64
    let buf1 := header.take 64
    if buf1.length ≠ 76 then .error .structError
    else
      let magic := buf1.take 4
      if magic ≠ sccaMagic then .ok none
      else
        -- struct.unpack('<I16xQ', header[16:40]): format size 28, buffer 24
        let buf2 := (header.drop 16).take 24
        if buf2.length ≠ 28 then .error .structError
        else
          let run_count := leBytes (buf2.take 4)
          -- an OverflowError raised here propagates out, like struct.error
          match convert_windows_timestamp (leBytes ((buf2.drop 20).take 8)) with
          | .error e => .error e
          | .ok last_run_time =>
          -- f.seek(84); struct.unpack('<I4xI4xI', f.read(20))
          let buf3 := (content.drop 84).take 20
          if buf3.length ≠ 20 then .error .structError
          else
            let volume_info_offset := leBytes (buf3.take 4)
            let volume_info_size := leBytes ((buf3.drop 8).take 4)
            -- f.seek(volume_info_offset); f.read(volume_info_size)
            let volume_data :=
              (content.drop volume_info_offset).take volume_info_size
            let bCreation := volume_data.take 8
            if bCreation.length ≠ 8 then .error .structError
            else
              match convert_windows_timestamp (leBytes bCreation) with
              | .error e => .error e
              | .ok volume_creation_time =>
              let bRef := (volume_data.drop 8).take 8
              if bRef.length ≠ 8 then .error .structError
              else
                let file_reference := leBytes bRef
                let bSerial := (volume_data.drop 16).take 4
                if bSerial.length ≠ 4 then .error .structError
                else
                  let volume_serial_number := leBytes bSerial
                  let bList := (volume_data.drop 20).take 8
                  if bList.length ≠ 8 then .error .structError
                  else
                    let file_list_offset := leBytes (bList.take 4)
                    let file_list_size := leBytes ((bList.drop 4).take 4)
                    let file_list_data :=
                      (content.drop file_list_offset).take file_list_size
                    match parse_accessed_files file_list_data with
                    | .error e => .error e
                    | .ok file_list =>
                      .ok (some {
                        executableName := basename filename
                        runCount := run_count
                        lastRunTime := last_run_time
                        volumeCreationTime := volume_creation_time
                        fileReference := file_reference
                        volumeSerialNumber := volume_serial_number
                        accessedFiles := file_list })

/-- Embedding of the decode loop of `process_prefetch_files` (lines
107-112): each file is parsed; a `None` result is skipped; a raised
exception propagates and aborts the whole batch (the source has no
try/except around `parse_prefetch`). -/
def process_prefetch_files (files : List (String × List Nat)) :
    Except PyErr (List FileInfo) :=
  match files with
  | [] => .ok []
  | (fn, content) :: rest =>
    match parse_prefetch fn content with
    | .error e => .error e
    | .ok fi =>
      match process_prefetch_files rest with
      | .error e => .error e
      | .ok restData =>
        match fi with
        | some info => .ok (info :: restData)
        | none => .ok restData

/-!
Definitions following the SPEC's words (for comparison with the source
embedding above), and concrete input buffers used by the claims.
-/

/-- Spec-side decoder (section 4.2 wording): decode UTF-16LE "tolerating
invalid code units by substituting a replacement rather than aborting" —
each invalid or truncated unit becomes U+FFFD instead of being dropped. -/
def specDecodeUtf16leReplace : List Nat → List Char
  | b0 :: b1 :: b2 :: b3 :: rest2 =>
    let u := b0 % 256 + 256 * (b1 % 256)
    if u < 0xD800 ∨ 0xE000 ≤ u then
      Char.ofNat u :: specDecodeUtf16leReplace (b2 :: b3 :: rest2)
    else if u < 0xDC00 then
      let v := b2 % 256 + 256 * (b3 % 256)
      if 0xDC00 ≤ v ∧ v < 0xE000 then
        Char.ofNat (0x10000 + 0x400 * (u - 0xD800) + (v - 0xDC00)) ::
          specDecodeUtf16leReplace rest2
      else
        '�' :: specDecodeUtf16leReplace (b2 :: b3 :: rest2)
    else
      '�' :: specDecodeUtf16leReplace (b2 :: b3 :: rest2)
  | [b0, b1] =>
    let u := b0 % 256 + 256 * (b1 % 256)
    if u < 0xD800 ∨ 0xE000 ≤ u then [Char.ofNat u]
    else ['�']
  | [b0, b1, _] =>
    let u := b0 % 256 + 256 * (b1 % 256)
    if u < 0xD800 ∨ 0xE000 ≤ u then [Char.ofNat u, '�']
    else ['�', '�']
  | [_] => ['�']
  | [] => []

/-- Spec-side stripping (section 4.2 wording): "strip trailing NUL
characters" — trailing only, leading NULs are kept. -/
def specStripTrailingNul (l : List Char) : List Char :=
  (l.reverse.dropWhile (fun c => c = '\x00')).reverse

/-- A synthetically constructed well-formed 140-byte Prefetch buffer:
magic `SCCA`, version 23, run count 5, last-run FILETIME for the Unix
epoch, volume-info descriptor pointing at a 28-byte volume block at
offset 104 (creation time 0, file reference 1, serial 0x12345678), and an
8-byte accessed-file list at offset 132 holding the single entry "AB". -/
def wfBuffer : List Nat :=
  [83, 67, 67, 65] ++                                    -- 0..3   magic
  [23, 0, 0, 0] ++                                       -- 4..7   version
  List.replicate 8 0 ++                                  -- 8..15  reserved
  [5, 0, 0, 0] ++                                        -- 16..19 run count
  List.replicate 16 0 ++                                 -- 20..35 reserved
  [0, 128, 62, 213, 222, 177, 157, 1] ++                 -- 36..43 last run
  List.replicate 40 0 ++                                 -- 44..83 reserved
  [104, 0, 0, 0] ++ [0, 0, 0, 0] ++ [28, 0, 0, 0] ++     -- 84..95 descriptor
  [0, 0, 0, 0] ++ [0, 0, 0, 0] ++                        -- 96..103
  List.replicate 8 0 ++                                  -- 104..111 creation
  [1, 0, 0, 0, 0, 0, 0, 0] ++                            -- 112..119 file ref
  [0x78, 0x56, 0x34, 0x12] ++                            -- 120..123 serial
  [132, 0, 0, 0] ++ [8, 0, 0, 0] ++                      -- 124..131 list loc
  [4, 0, 0, 0, 65, 0, 66, 0]                             -- 132..139 "AB"

/-- An 84-byte buffer whose magic is `XXXX`, not `SCCA`. -/
def notSccaBuffer : List Nat := [88, 88, 88, 88] ++ List.replicate 80 0

/-- A 120-byte buffer with valid `SCCA` magic whose volume-info descriptor
claims a 1000-byte volume block at offset 104, though only 16 bytes follow
that offset: the volume block is truncated. -/
def shortVolumeBuffer : List Nat :=
  [83, 67, 67, 65] ++ [23, 0, 0, 0] ++ List.replicate 76 0 ++
  [104, 0, 0, 0] ++ [0, 0, 0, 0] ++ [232, 3, 0, 0] ++
  [0, 0, 0, 0] ++ [0, 0, 0, 0] ++ List.replicate 16 0

/-- The mixed batch of the batch-isolation property: one well-formed file,
one non-Prefetch file, one truncated (3-byte) file. -/
def mixedBatch : List (String × List Nat) :=
  [("good.pf", wfBuffer), ("notpf.pf", notSccaBuffer), ("short.pf", [83, 67, 67])]

/-!
Theorems.  The central behavioural fact is that the first header unpack,
`struct.unpack('<4sI12xI48x4x', header[:64])`, demands a 76-byte buffer but
is handed 64 bytes, so it raises `struct.error` on every input long enough
to get past the 84-byte header-length guard.
-/

/-- Normal form of `parse_prefetch`: inputs shorter than 84 bytes return
`None`; every other input raises `struct.error` at the first header
unpack, whose 76-byte format is applied to the 64-byte slice
`header[:64]`. -/
theorem parse_prefetch_eq (fn : String) (c : List Nat) :
    parse_prefetch fn c =
      if c.length < 84 then Except.ok none else Except.error PyErr.structError := by
  by_cases h : c.length < 84
  · have h1 : min 84 c.length < 84 := by omega
    simp [parse_prefetch, List.length_take, h1, h]
  · have h1 : ¬ min 84 c.length < 84 := by omega
    have h2 : min 64 (min 84 c.length) ≠ 76 := by omega
    simp [parse_prefetch, List.length_take, h1, h2, h]

/-- C2: for every input, `parse_prefetch` either returns `None` (fewer than
84 bytes) or raises `struct.error` at its first header unpack (whose
format `'<4sI12xI48x4x'` needs 76 bytes while `header[:64]` supplies 64),
and never returns a record. -/
theorem claim_C2_never_returns_record (fn : String) (c : List Nat) :
    parse_prefetch fn c =
      if c.length < 84 then Except.ok none else Except.error PyErr.structError :=
  parse_prefetch_eq fn c

/-- C6: a buffer shorter than 84 bytes always yields the truncated-header
failure (`None`), never a record — and `None` arises exactly there, for
any magic bytes, so the signature check is never attempted on a short
read. -/
theorem claim_C6_truncated_header (fn : String) (c : List Nat) :
    parse_prefetch fn c = Except.ok none ↔ c.length < 84 := by
  rw [parse_prefetch_eq]
  by_cases h : c.length < 84 <;> simp [h]

/-- C1: the round-trip property FAILS on the code: on a synthetically
constructed well-formed 140-byte Prefetch buffer (valid `SCCA` magic,
consistent offsets and sizes, known field values) `parse_prefetch` raises
`struct.error` instead of returning the record. -/
theorem claim_C1_roundtrip_raises :
    wfBuffer.take 4 = sccaMagic ∧ 84 ≤ wfBuffer.length ∧
    parse_prefetch "CALC.EXE-12345678.pf" wfBuffer = Except.error PyErr.structError :=
  ⟨rfl, by decide, rfl⟩

/-- C3: the signature gate FAILS on the code: on an 84-byte input whose
first 4 bytes are `XXXX` (not `SCCA`), `parse_prefetch` raises
`struct.error` at the first header unpack instead of returning the
`NotAPrefetchFile` outcome (`None`); the magic comparison on line 24 is
never reached. -/
theorem claim_C3_signature_gate_raises :
    notSccaBuffer.take 4 ≠ sccaMagic ∧ notSccaBuffer.length = 84 ∧
    parse_prefetch "garbage.pf" notSccaBuffer = Except.error PyErr.structError :=
  ⟨by decide, by decide, rfl⟩

/-- C4: batch isolation FAILS on the code: on the mixed batch (one
well-formed file, one non-Prefetch file, one truncated file) the
uncaught `struct.error` from `parse_prefetch` propagates out of the
collection loop of `process_prefetch_files`, aborting the whole batch
with no output records instead of completing with exactly one record. -/
theorem claim_C4_batch_aborts :
    process_prefetch_files mixedBatch = Except.error PyErr.structError := rfl

/-- C7: the truncated-volume-block outcome FAILS on the code: on a
120-byte input with valid `SCCA` magic whose descriptor claims a
1000-byte volume block at offset 104 (only 16 bytes are available
there), `parse_prefetch` raises `struct.error` — at the first header
unpack, before the volume block is ever read — rather than failing with
a `TruncatedVolumeBlock` outcome. -/
theorem claim_C7_truncated_volume_raises :
    shortVolumeBuffer.take 4 = sccaMagic ∧ shortVolumeBuffer.length = 120 ∧
    parse_prefetch "vol.pf" shortVolumeBuffer = Except.error PyErr.structError :=
  ⟨rfl, by decide, rfl⟩

/-- C10: distinct decode outcomes FAIL on the code: an 84-byte input with
a signature mismatch raises the same `struct.error` as every malformed
long input (no distinct `NotAPrefetchFile` outcome is ever produced),
while only short inputs give `None`; a signature mismatch still never
produces a record. -/
theorem claim_C10_outcomes_not_distinct :
    parse_prefetch "mm.pf" (List.replicate 84 65) = Except.error PyErr.structError ∧
    parse_prefetch "mm.pf" (List.replicate 83 65) = Except.ok none :=
  ⟨rfl, rfl⟩

/-- C9 counterexample: `convert_windows_timestamp` does not format every
input — at the FILETIME value 2650467744000000000 (inside the uint64
domain; its `// 10` microsecond offset reaches 10000-01-01) the
`datetime` addition raises `OverflowError` instead of producing a
`YYYY-MM-DD HH:MM:SS` string. -/
theorem claim_C9_counterexample :
    convert_windows_timestamp 2650467744000000000 = Except.error PyErr.overflowError :=
  rfl

/-- C9 (amended): for every input whose `timestamp // 10` microsecond
offset stays below the `datetime` range bound (year 10000),
`convert_windows_timestamp` adds that offset to 1601-01-01 00:00:00 and
formats the result at second resolution: it returns a string (never
raises), only the whole-second part `timestamp / 10^7` affects the
output, and in particular `convert(0)` is `1601-01-01 00:00:00` and
`convert(116444736000000000)` is the Unix epoch `1970-01-01 00:00:00`;
for larger inputs it raises `OverflowError`. -/
theorem claim_C9_timestamp_conversion :
    convert_windows_timestamp 0 = Except.ok "1601-01-01 00:00:00" ∧
    convert_windows_timestamp 116444736000000000 = Except.ok "1970-01-01 00:00:00" ∧
    ∀ t : Nat, t / 10 < datetimeMaxMicro →
      (∃ s : String, convert_windows_timestamp t = Except.ok s) ∧
      convert_windows_timestamp t =
        convert_windows_timestamp (10000000 * (t / 10000000)) := by
  refine ⟨rfl, rfl, fun t ht => ?_⟩
  simp only [datetimeMaxMicro] at ht
  have ht1 : ¬ (265046774400000000 ≤ t / 10) := by omega
  have ht2 : ¬ (265046774400000000 ≤ 10000000 * (t / 10000000) / 10) := by omega
  have key : 10000000 * (t / 10000000) / 10 / 1000000 = t / 10 / 1000000 := by omega
  constructor
  · cases hc : convert_windows_timestamp t with
    | ok s => exact ⟨s, rfl⟩
    | error e =>
      simp only [convert_windows_timestamp, datetimeMaxMicro] at hc
      rw [if_neg ht1] at hc
      simp at hc
  · simp only [convert_windows_timestamp, datetimeMaxMicro]
    rw [if_neg ht1, if_neg ht2, key]

/-- C9 witness: the amended conversion at the concrete in-range FILETIME
123456789 — it formats successfully and agrees with its whole-second
truncation. -/
theorem claim_C9_witness :
    (123456789 : Nat) / 10 < datetimeMaxMicro ∧
    (∃ s : String, convert_windows_timestamp 123456789 = Except.ok s) ∧
    convert_windows_timestamp 123456789 =
      convert_windows_timestamp (10000000 * (123456789 / 10000000)) :=
  ⟨by decide, (claim_C9_timestamp_conversion.2.2 123456789 (by decide)).1,
    (claim_C9_timestamp_conversion.2.2 123456789 (by decide)).2⟩

/-- C5 counterexample: a buffer holding one complete entry followed by a
1-byte trailing fragment makes `parse_accessed_files` raise
`struct.error` — the fragment is not silently discarded, refuting the
claim that a 1-to-3-byte tail never causes an exception. -/
theorem claim_C5_counterexample :
    parse_accessed_files [4, 0, 0, 0, 65, 0, 0, 0, 1] = Except.error PyErr.structError :=
  rfl

/-- C5 (amended): the record-walking loop (`while data:`) terminates
normally only when the buffer is exactly empty; whenever 1 to 3 bytes
remain, `struct.unpack('<I', data[:4])` raises `struct.error`, so a
trailing fragment IS an error rather than being silently discarded. -/
theorem claim_C5_fragment_raises :
    parse_accessed_files [] = Except.ok [] ∧
    ∀ data : List Nat, 0 < data.length → data.length < 4 →
      parse_accessed_files data = Except.error PyErr.structError := by
  refine ⟨rfl, fun data h1 h2 => ?_⟩
  obtain ⟨a, tl, rfl⟩ : ∃ a tl, data = a :: tl := by
    cases data with
    | nil => simp at h1
    | cons a tl => exact ⟨a, tl, rfl⟩
  simp only [parse_accessed_files, List.length_cons]
  rw [parseFilesAux, if_pos h2]
  simp

/-- C5 witness: the amended fragment behaviour at the concrete 3-byte
buffer `[0, 0, 0]`. -/
theorem claim_C5_witness :
    0 < ([0, 0, 0] : List Nat).length ∧ ([0, 0, 0] : List Nat).length < 4 ∧
    parse_accessed_files [0, 0, 0] = Except.error PyErr.structError :=
  ⟨by decide, by decide, claim_C5_fragment_raises.2 [0, 0, 0] (by decide) (by decide)⟩

/-- C8 counterexample: entry decoding diverges from the claim on both
counts.  The 4-byte entry `00 00 41 00` decodes (via `errors='ignore'`
then `.strip('\x00')`) to `"A"` — the LEADING NUL is stripped too — while
the claim's replacement-and-trailing-strip-only reading predicts
`"\x00A"`; and the 1-byte entry `41` decodes to `""` — the invalid unit
is dropped — while the claim's reading predicts a replacement character. -/
theorem claim_C8_counterexample :
    parse_accessed_files [4, 0, 0, 0, 0, 0, 65, 0] = Except.ok [['A']] ∧
    specStripTrailingNul (specDecodeUtf16leReplace [0, 0, 65, 0]) = ['\x00', 'A'] ∧
    parse_accessed_files [1, 0, 0, 0, 65] = Except.ok [[]] ∧
    specStripTrailingNul (specDecodeUtf16leReplace [65]) = ['�'] ∧
    (['A'] : List Char) ≠ ['\x00', 'A'] ∧ ([] : List Char) ≠ ['�'] :=
  ⟨rfl, rfl, rfl, rfl, by decide, by decide⟩

/-- C8 (amended): each length-prefixed entry's `L` bytes are decoded as
UTF-16LE with invalid code units silently DROPPED (`errors='ignore'`,
not replaced), and NUL characters are stripped from BOTH ends (not only
trailing) before the name is appended: for any entry payload `bs`
(length below 256 so the 4-byte prefix is `len 0 0 0`), parsing the
single-entry buffer yields exactly that decoded, both-ends-stripped
name. -/
theorem claim_C8_entry_decode (bs : List Nat) (h : bs.length < 256) :
    parse_accessed_files (bs.length :: 0 :: 0 :: 0 :: bs) =
      Except.ok [stripNul (decodeUtf16leIgnore bs)] := by
  have h4 : (bs.length :: 0 :: 0 :: 0 :: bs).length = (bs.length + 3) + 1 := by
    simp only [List.length_cons]
  simp only [parse_accessed_files, h4]
  rw [parseFilesAux, if_neg (by simp only [List.length_cons]; omega)]
  · have htake : (bs.length :: 0 :: 0 :: 0 :: bs).take 4 = [bs.length, 0, 0, 0] := rfl
    have hL : leBytes [bs.length, 0, 0, 0] = bs.length := by
      simp [leBytes, Nat.mod_eq_of_lt h]
    have hdrop : (bs.length :: 0 :: 0 :: 0 :: bs).drop 4 = bs := rfl
    have hrest : (bs.length :: 0 :: 0 :: 0 :: bs).drop (4 + bs.length) = [] := by
      apply List.drop_eq_nil_of_le
      simp only [List.length_cons]
      omega
    simp only [htake, hL, hdrop, hrest, List.take_length]
    rw [parseFilesAux]
  · simp

/-- C8 witness: the amended entry decoding at the concrete payload
`00 00 41 00`, whose decoded, both-ends-stripped name is `"A"`. -/
theorem claim_C8_witness :
    ([0, 0, 65, 0] : List Nat).length < 256 ∧
    parse_accessed_files [4, 0, 0, 0, 0, 0, 65, 0] =
      Except.ok [stripNul (decodeUtf16leIgnore [0, 0, 65, 0])] :=
  ⟨by decide, claim_C8_entry_decode [0, 0, 65, 0] (by decide)⟩
